import Mathlib

/-!
Verification development for the VFD motor startup simulation scripts
(vfd_simulation_v2.py, vfd_simulation_v3.py, vfd_simulation_v4.py).

The numerical model is embedded shallowly over the real numbers: every
configuration constant, control-law function, torque model, load model and
per-sample metrics computation is translated directly from the Python source.
Trajectories of the ODE integrator are modelled as real-valued functions
whose derivative at each time equals the source's derivative function.
-/

noncomputable section

open Real

/-! ## Configuration parameters (shared by v2/v3/v4, identical values) -/

def POWER_HP : ℝ := 800

def POWER_KW : ℝ := POWER_HP * 0.7457

def VOLTAGE : ℝ := 460

def BASE_FREQ : ℝ := 60

def POLES : ℝ := 4

def EFFICIENCY : ℝ := 0.95

def POWER_FACTOR : ℝ := 0.88

def SYNC_SPEED_RPM : ℝ := 120 * BASE_FREQ / POLES

def SYNC_SPEED_RAD : ℝ := SYNC_SPEED_RPM * (2 * Real.pi / 60)

def RATED_TORQUE : ℝ := (POWER_KW * 1000) / (SYNC_SPEED_RAD * (1 - 0.03))

def INERTIA : ℝ := 150

def DAMPING : ℝ := 2.0

def LOAD_TORQUE_FACTOR : ℝ := 0.75

def RAMP_TIME : ℝ := 30

def V_BOOST : ℝ := 0.15

def VFD_RAMP_TIME : ℝ := 30

def SOFT_START_RAMP_TIME : ℝ := 20

def SOFT_START_INITIAL_VOLTAGE : ℝ := 0.3

def FLA : ℝ := (POWER_KW * 1000) / (Real.sqrt 3 * VOLTAGE * POWER_FACTOR * EFFICIENCY)

def LOAD_TORQUE : ℝ := RATED_TORQUE * LOAD_TORQUE_FACTOR

/-! ## Load torque models (get_load_torque in v3/v4) -/

/-- Load type selector; the source passes a string and falls back to the
constant-torque law for unknown strings, modelled by the `other` case. -/
inductive LoadType
  | constant_torque
  | fan_pump
  | constant_power
  | other
  deriving DecidableEq

/-- np.clip semantics: min (max x lo) hi. -/
def np_clip (x lo hi : ℝ) : ℝ := min (max x lo) hi

def get_load_torque (speed_r base_torque : ℝ) (lt : LoadType) : ℝ :=
  let sr := max 0 (min speed_r 1)
  match lt with
  | .constant_torque => base_torque * (0.3 + 0.7 * sr)
  | .fan_pump => base_torque * sr ^ 2
  | .constant_power =>
      if sr < 0.1 then base_torque * 0.1 / 0.1 else base_torque * 1.0 / sr
  | .other => base_torque * (0.3 + 0.7 * sr)

/-! ## VFD control functions (v3 freq_func/voltage_func, v4 vfd_freq_func) -/

def freq_func (t : ℝ) : ℝ :=
  if t ≤ RAMP_TIME then BASE_FREQ * (t / RAMP_TIME) else BASE_FREQ

def vfd_freq_func (t ramp_time : ℝ) : ℝ :=
  if t ≤ ramp_time then BASE_FREQ * (t / ramp_time) else BASE_FREQ

def voltage_func (freq : ℝ) : ℝ :=
  let base_voltage := VOLTAGE * (freq / BASE_FREQ)
  if freq < BASE_FREQ * 0.1 then
    base_voltage + VOLTAGE * V_BOOST * (1 - freq / (BASE_FREQ * 0.1))
  else base_voltage

/-- Soft-starter voltage ramp (v4 soft_start_voltage_func), parameterized by
the module constant SOFT_START_INITIAL_VOLTAGE so that reconfigured initial
voltage fractions can be stated. -/
def soft_start_voltage_func (initial_voltage t ramp_time : ℝ) : ℝ :=
  if t ≤ ramp_time then
    VOLTAGE * (initial_voltage + (1 - initial_voltage) * (t / ramp_time))
  else VOLTAGE

/-! ## Torque-slip characteristic (a*s)/(s^2 + b*s + c), a=2.5 b=0.15 c=0.08 -/

def torque_slip_curve (s : ℝ) : ℝ := (2.5 * s) / (s ^ 2 + 0.15 * s + 0.08)

/-! ## Motor dynamics (v3 motor_dynamics, v4 soft_start_motor_dynamics) -/

/-- Derivative function of the v3 VFD run (motor_dynamics): returns dω/dt. -/
def motor_dynamics (base_load_torque : ℝ) (lt : LoadType) (omega_r t : ℝ) : ℝ :=
  let freq := freq_func t
  if freq < 1.0 then
    let sync_speed_rad := (120 * freq / POLES) * (2 * Real.pi / 60)
    if sync_speed_rad < 0.1 then 0
    else
      let slip := np_clip ((sync_speed_rad - omega_r) / sync_speed_rad) 0 1
      let torque_em := RATED_TORQUE * 2.5 * slip * (1 + V_BOOST * 5)
      let speed_r := if SYNC_SPEED_RAD > 0 then omega_r / SYNC_SPEED_RAD else 0
      let effective_load := get_load_torque speed_r base_load_torque lt
      (torque_em - effective_load - DAMPING * omega_r) / INERTIA
  else
    let sync_speed_rad := (120 * freq / POLES) * (2 * Real.pi / 60)
    let slip := np_clip ((sync_speed_rad - omega_r) / sync_speed_rad) 0 1
    let torque_em0 := RATED_TORQUE * torque_slip_curve slip * (freq / BASE_FREQ)
    let torque_em :=
      if freq < BASE_FREQ * 0.15 then
        torque_em0 * (1 + V_BOOST * (1 - freq / (BASE_FREQ * 0.15)))
      else torque_em0
    let speed_r := if SYNC_SPEED_RAD > 0 then omega_r / SYNC_SPEED_RAD else 0
    let effective_load := get_load_torque speed_r base_load_torque lt
    (torque_em - effective_load - DAMPING * omega_r) / INERTIA

/-- Electromagnetic torque of the soft starter (torque_em inside
v4 soft_start_motor_dynamics): rated torque x rational slip curve x
square of the voltage ratio. -/
def soft_start_torque_em (initial_voltage ramp_time omega_r t : ℝ) : ℝ :=
  RATED_TORQUE * torque_slip_curve (np_clip ((SYNC_SPEED_RAD - omega_r) / SYNC_SPEED_RAD) 0 1)
    * (soft_start_voltage_func initial_voltage t ramp_time / VOLTAGE) ^ 2

/-- Derivative function of the v4 soft-starter run. -/
def soft_start_motor_dynamics (initial_voltage base_load_torque : ℝ) (lt : LoadType)
    (ramp_time omega_r t : ℝ) : ℝ :=
  let torque_em := soft_start_torque_em initial_voltage ramp_time omega_r t
  let speed_r := if SYNC_SPEED_RAD > 0 then omega_r / SYNC_SPEED_RAD else 0
  let effective_load := get_load_torque speed_r base_load_torque lt
  (torque_em - effective_load - DAMPING * omega_r) / INERTIA

/-! ## DOL approximator (v3 simulate_dol_start, per-time closed forms) -/

def dol_omega (t : ℝ) : ℝ :=
  if t = 0 then 0 else SYNC_SPEED_RPM * 0.97 * (1 - Real.exp (-t / 2))

def dol_current (t : ℝ) : ℝ :=
  if t = 0 then FLA * 6.5
  else FLA * (1 + 5.5 * (1 - (1 - Real.exp (-t / 2)) * 0.97))

def dol_torque (t : ℝ) : ℝ :=
  if t = 0 then RATED_TORQUE * 2.5
  else RATED_TORQUE * (2.5 * (1 - (1 - Real.exp (-t / 2)) * 0.97) + 1.0)

/-! ## Basic positivity facts -/

lemma sync_speed_rad_pos : 0 < SYNC_SPEED_RAD := by
  unfold SYNC_SPEED_RAD SYNC_SPEED_RPM BASE_FREQ POLES
  have := Real.pi_pos
  positivity

lemma rated_torque_pos : 0 < RATED_TORQUE := by
  unfold RATED_TORQUE POWER_KW POWER_HP
  have h := sync_speed_rad_pos
  have h2 : (0:ℝ) < SYNC_SPEED_RAD * (1 - 0.03) := by nlinarith
  positivity

lemma fla_pos : 0 < FLA := by
  unfold FLA POWER_KW POWER_HP VOLTAGE POWER_FACTOR EFFICIENCY
  have h3 : (0:ℝ) < Real.sqrt 3 := Real.sqrt_pos.mpr (by norm_num)
  positivity

lemma load_torque_pos : 0 < LOAD_TORQUE := by
  unfold LOAD_TORQUE LOAD_TORQUE_FACTOR
  nlinarith [rated_torque_pos]

/-! ## Load model helper lemmas -/

lemma get_load_torque_nonneg (speed_r base_torque : ℝ) (lt : LoadType)
    (hb : 0 ≤ base_torque) : 0 ≤ get_load_torque speed_r base_torque lt := by
  unfold get_load_torque
  set sr := max 0 (min speed_r 1) with hsr
  have h0 : 0 ≤ sr := le_max_left 0 _
  cases lt with
  | constant_torque => dsimp only; nlinarith
  | fan_pump => dsimp only; positivity
  | constant_power =>
      dsimp only
      split
      · have he : base_torque * 0.1 / 0.1 = base_torque := by ring
        rw [he]; exact hb
      · rename_i h
        push_neg at h
        have : (0:ℝ) < sr := lt_of_lt_of_le (by norm_num) h
        positivity
  | other => dsimp only; nlinarith

lemma get_load_torque_le_base (speed_r base_torque : ℝ) (lt : LoadType)
    (hb : 0 ≤ base_torque) (hne : lt ≠ .constant_power) :
    get_load_torque speed_r base_torque lt ≤ base_torque := by
  unfold get_load_torque
  set sr := max 0 (min speed_r 1) with hsr
  have h0 : 0 ≤ sr := le_max_left 0 _
  have h1 : sr ≤ 1 := max_le (by norm_num) (min_le_right _ _)
  have hsq : sr ^ 2 ≤ 1 := by nlinarith
  cases lt with
  | constant_torque => dsimp only; nlinarith
  | fan_pump => dsimp only; nlinarith
  | constant_power => exact absurd rfl hne
  | other => dsimp only; nlinarith

lemma get_load_torque_cp_le (speed_r base_torque : ℝ)
    (hb : 0 ≤ base_torque) :
    get_load_torque speed_r base_torque .constant_power ≤ 10 * base_torque := by
  unfold get_load_torque
  set sr := max 0 (min speed_r 1) with hsr
  dsimp only
  split
  · have he : base_torque * 0.1 / 0.1 = base_torque := by ring
    rw [he]; nlinarith
  · rename_i h
    push_neg at h
    have hpos : (0:ℝ) < sr := lt_of_lt_of_le (by norm_num) h
    have he : base_torque * 1.0 / sr = base_torque / sr := by ring
    rw [he, div_le_iff₀ hpos]
    nlinarith

/-! ## Per-sample metrics (the v3 post-processing loop, lines 217-266) -/

structure Sample where
  slip_pct : ℝ
  torque : ℝ
  load_torque : ℝ
  current : ℝ
  power_out : ℝ
  power_in : ℝ
  eff_pct : ℝ

/-- One iteration of the v3 metrics loop, as a pure function of the sample's
setpoint frequency and integrated rotor speed.  When freq < 0.5 the source
writes slip 100 and zeros (power entries keep their np.zeros value). -/
def v3sample (freq omega_r : ℝ) (lt : LoadType) : Sample :=
  if 0.5 ≤ freq then
    let sync_speed_rad := (120 * freq / POLES) * (2 * Real.pi / 60)
    let slip := np_clip
      (if sync_speed_rad > 0 then (sync_speed_rad - omega_r) / sync_speed_rad else 1) 0 1
    let torque_em :=
      if freq < 1.0 then RATED_TORQUE * 2.5 * slip * (1 + V_BOOST * 5)
      else
        let te0 := RATED_TORQUE * torque_slip_curve slip * (freq / BASE_FREQ)
        if freq < BASE_FREQ * 0.15 then
          te0 * (1 + V_BOOST * (1 - freq / (BASE_FREQ * 0.15)))
        else te0
    let speed_r := if SYNC_SPEED_RAD > 0 then omega_r / SYNC_SPEED_RAD else 0
    let load := get_load_torque speed_r LOAD_TORQUE lt
    let torque_component := FLA * (torque_em / RATED_TORQUE)
    let magnetizing_component := FLA * 0.3
    let current := Real.sqrt (torque_component ^ 2 + magnetizing_component ^ 2)
    let power_out := omega_r * load / 1000
    let power_in := Real.sqrt 3 * VOLTAGE * current * POWER_FACTOR / 1000
    let eff := if power_in > 0 then power_out / power_in * 100 else 0
    ⟨slip * 100, torque_em, load, current, power_out, power_in, eff⟩
  else ⟨100, 0, 0, 0, 0, 0, 0⟩

/-- One iteration of the v4 calculate_metrics loop for method 'vfd'.
When freq < 0.5 the source executes `continue`, leaving every array entry
at its np.zeros initial value (including slip). -/
def v4vfd_sample (t omega_r : ℝ) (lt : LoadType) : Sample :=
  let freq := vfd_freq_func t VFD_RAMP_TIME
  if freq < 0.5 then ⟨0, 0, 0, 0, 0, 0, 0⟩
  else
    let sync_speed_rad := (120 * freq / POLES) * (2 * Real.pi / 60)
    let volt := voltage_func freq
    let s := np_clip
      (if sync_speed_rad > 0 then (sync_speed_rad - omega_r) / sync_speed_rad else 1) 0 1
    let tq0 := RATED_TORQUE * torque_slip_curve s * (freq / BASE_FREQ)
    let tq :=
      if freq < BASE_FREQ * 0.15 then tq0 * (1 + V_BOOST * (1 - freq / (BASE_FREQ * 0.15)))
      else tq0
    let speed_r := if SYNC_SPEED_RAD > 0 then omega_r / SYNC_SPEED_RAD else 0
    let load := get_load_torque speed_r LOAD_TORQUE lt
    let current := Real.sqrt ((FLA * (tq / RATED_TORQUE)) ^ 2 + (FLA * 0.3) ^ 2)
    let power_out := omega_r * load / 1000
    let power_in := Real.sqrt 3 * volt * current * POWER_FACTOR / 1000
    ⟨s * 100, tq, load, current, power_out, power_in,
      if power_in > 0 then power_out / power_in * 100 else 0⟩

/-! ## Scalar summaries over a run (lists of (freq, omega) samples) -/

def np_mean (l : List ℝ) : ℝ := l.sum / l.length

/-- np.trapz y x: trapezoidal integral of the values y over the axis x. -/
def np_trapz : List ℝ → List ℝ → ℝ
  | y1 :: y2 :: ys, x1 :: x2 :: xs =>
      (x2 - x1) * (y1 + y2) / 2 + np_trapz (y2 :: ys) (x2 :: xs)
  | _, _ => 0

open Classical in
/-- v3 avg_efficiency = np.mean(efficiency_array[efficiency_array > 0]):
the mean over samples whose EFFICIENCY is strictly positive. -/
def avg_efficiency (samples : List (ℝ × ℝ)) (lt : LoadType) : ℝ :=
  np_mean (((samples.map fun p => (v3sample p.1 p.2 lt).eff_pct).filter
    fun e => 0 < e))

open Classical in
/-- Average efficiency as the specification words it: the mean of per-sample
efficiency taken exactly over the samples where input power is strictly
positive.  Stated for refinement comparison with avg_efficiency. -/
def avg_efficiency_per_spec (samples : List (ℝ × ℝ)) (lt : LoadType) : ℝ :=
  np_mean (((samples.filter fun p => 0 < (v3sample p.1 p.2 lt).power_in).map
    fun p => (v3sample p.1 p.2 lt).eff_pct))

/-- v3 startup energy: vfd_energy_kj = np.trapz(power_input_array, time). -/
def vfd_energy_kj (times omegas : List ℝ) (lt : LoadType) : ℝ :=
  np_trapz ((times.zip omegas).map fun p => (v3sample (freq_func p.1) p.2 lt).power_in) times

/-! ## The omega-range invariant claim (C1), over exact trajectories -/

/-- The spec's trajectory invariant: every run of either dynamics (VFD ramp or
soft starter at the configured initial voltage), started from standstill, with
the configured damping/inertia and load torque, keeps omega within
[0, synchronous speed at the final setpoint frequency] at all times. -/
def omega_range_invariant : Prop :=
  ∀ (lt : LoadType) (T : ℝ) (ω : ℝ → ℝ), 0 < T → ω 0 = 0 →
    ((∀ t ∈ Set.Icc (0:ℝ) T, HasDerivAt ω
        (soft_start_motor_dynamics SOFT_START_INITIAL_VOLTAGE LOAD_TORQUE lt
          SOFT_START_RAMP_TIME (ω t) t) t) ∨
     (∀ t ∈ Set.Icc (0:ℝ) T, HasDerivAt ω
        (motor_dynamics LOAD_TORQUE lt (ω t) t) t)) →
    ∀ t ∈ Set.Icc (0:ℝ) T, 0 ≤ ω t ∧ ω t ≤ SYNC_SPEED_RAD

/-- Exact solution of the soft-starter equation of motion with constant-power
load on the initial interval where omega stays nonpositive: there slip clips
to 1, the clamped speed ratio is 0, and the ODE is linear with a quadratic
voltage-ramp forcing term; uSol is the dimensionless solution (omega divided
by RATED_TORQUE). -/
def uSol (t : ℝ) : ℝ :=
  15903 / 1312 - 217 / 1312 * t + 49 / 39360 * t ^ 2
    - 15903 / 1312 * Real.exp (-t / 75)

def omegaSol (t : ℝ) : ℝ := RATED_TORQUE * uSol t

/-! ## Facts about the explicit soft-starter solution -/

lemma uSol_zero : uSol 0 = 0 := by
  unfold uSol
  norm_num

lemma uSol_nonpos {t : ℝ} (h0 : 0 ≤ t) (h1 : t ≤ 1 / 2) : uSol t ≤ 0 := by
  have hexp : -t / 75 + 1 ≤ Real.exp (-t / 75) := Real.add_one_le_exp _
  unfold uSol
  nlinarith [hexp, mul_nonneg h0 (by linarith : (0:ℝ) ≤ 1 / 2 - t)]

lemma uSol_half_neg : uSol (1 / 2) < 0 := by
  have hexp : -(1 / 2 : ℝ) / 75 + 1 ≤ Real.exp (-(1 / 2 : ℝ) / 75) :=
    Real.add_one_le_exp _
  unfold uSol
  nlinarith [hexp]

lemma uSol_hasDerivAt (t : ℝ) :
    HasDerivAt uSol
      (-217 / 1312 + 49 / 19680 * t + 15903 / 98400 * Real.exp (-t / 75)) t := by
  have h1 : HasDerivAt (fun s : ℝ => -s / 75) (-1 / 75) t := by
    simpa using ((hasDerivAt_id t).neg.div_const 75)
  have hexp : HasDerivAt (fun s : ℝ => Real.exp (-s / 75))
      (Real.exp (-t / 75) * (-1 / 75)) t := h1.exp
  have hb : HasDerivAt (fun s : ℝ => 217 / 1312 * s) (217 / 1312) t := by
    simpa using (hasDerivAt_id t).const_mul (217 / 1312 : ℝ)
  have hc : HasDerivAt (fun s : ℝ => 49 / 39360 * s ^ 2) (49 / 39360 * (2 * t)) t := by
    simpa using (hasDerivAt_pow 2 t).const_mul (49 / 39360 : ℝ)
  have ha : HasDerivAt (fun _ : ℝ => (15903 : ℝ) / 1312) 0 t := hasDerivAt_const t _
  have h := ((ha.sub hb).add hc).sub (hexp.const_mul (15903 / 1312 : ℝ))
  have hfun : uSol = fun s : ℝ =>
      (15903 / 1312 - 217 / 1312 * s + 49 / 39360 * s ^ 2)
        - 15903 / 1312 * Real.exp (-s / 75) := by
    funext s; unfold uSol; ring
  rw [hfun]
  convert h using 1
  ring

lemma omegaSol_zero : omegaSol 0 = 0 := by
  unfold omegaSol
  rw [uSol_zero, mul_zero]

lemma omegaSol_nonpos {t : ℝ} (h0 : 0 ≤ t) (h1 : t ≤ 1 / 2) : omegaSol t ≤ 0 := by
  unfold omegaSol
  nlinarith [rated_torque_pos, uSol_nonpos h0 h1]

/-- On the region where omega is nonpositive (slip clips to 1, clamped speed
ratio is 0) and t is within the voltage ramp, the soft-starter derivative
field with constant-power load reduces to a linear ODE with quadratic forcing. -/
lemma soft_start_field_on_nonpos (t omega_r : ℝ) (h1 : t ≤ 1 / 2) (hw : omega_r ≤ 0) :
    soft_start_motor_dynamics SOFT_START_INITIAL_VOLTAGE LOAD_TORQUE .constant_power
      SOFT_START_RAMP_TIME omega_r t
    = (RATED_TORQUE * (250 / 123) * (0.3 + 0.7 * (t / 20)) ^ 2 - LOAD_TORQUE
        - DAMPING * omega_r) / INERTIA := by
  have hS := sync_speed_rad_pos
  have hslip : np_clip ((SYNC_SPEED_RAD - omega_r) / SYNC_SPEED_RAD) 0 1 = 1 := by
    have hge : 1 ≤ (SYNC_SPEED_RAD - omega_r) / SYNC_SPEED_RAD := by
      rw [le_div_iff₀ hS]; linarith
    unfold np_clip
    rw [max_eq_left (le_trans zero_le_one hge), min_eq_right hge]
  have hd : omega_r / SYNC_SPEED_RAD ≤ 0 :=
    div_nonpos_of_nonpos_of_nonneg hw hS.le
  have hload : get_load_torque (omega_r / SYNC_SPEED_RAD) LOAD_TORQUE .constant_power
      = LOAD_TORQUE := by
    unfold get_load_torque
    rw [min_eq_left (le_trans hd zero_le_one), max_eq_left hd]
    dsimp only
    rw [if_pos (by norm_num : (0:ℝ) < 0.1)]
    ring
  have hvolt : soft_start_voltage_func SOFT_START_INITIAL_VOLTAGE t SOFT_START_RAMP_TIME
      = VOLTAGE * (0.3 + 0.7 * (t / 20)) := by
    unfold soft_start_voltage_func SOFT_START_RAMP_TIME SOFT_START_INITIAL_VOLTAGE
    rw [if_pos (by linarith : t ≤ (20:ℝ))]
    ring
  have hcurve : torque_slip_curve 1 = 250 / 123 := by
    unfold torque_slip_curve; norm_num
  have hV : (VOLTAGE : ℝ) ≠ 0 := by unfold VOLTAGE; norm_num
  simp only [soft_start_motor_dynamics, soft_start_torque_em, hslip, hvolt, hcurve,
    if_pos hS, hload, gt_iff_lt]
  rw [mul_div_cancel_left₀ _ hV]

/-- omegaSol is an exact trajectory of the soft-starter run with
constant-power load on [0, 1/2]. -/
lemma omegaSol_ode {t : ℝ} (h0 : 0 ≤ t) (h1 : t ≤ 1 / 2) :
    HasDerivAt omegaSol
      (soft_start_motor_dynamics SOFT_START_INITIAL_VOLTAGE LOAD_TORQUE .constant_power
        SOFT_START_RAMP_TIME (omegaSol t) t) t := by
  rw [soft_start_field_on_nonpos t (omegaSol t) h1 (omegaSol_nonpos h0 h1)]
  have h := (uSol_hasDerivAt t).const_mul RATED_TORQUE
  convert h using 1
  unfold LOAD_TORQUE DAMPING INERTIA LOAD_TORQUE_FACTOR omegaSol uSol
  ring

/-! ## Helper facts for the synchronous-speed upper bound -/

lemma freq_func_le (t : ℝ) : freq_func t ≤ BASE_FREQ := by
  unfold freq_func RAMP_TIME BASE_FREQ
  split
  · rename_i h
    nlinarith
  · exact le_refl _

lemma np_clip_of_nonpos {x : ℝ} (hx : x ≤ 0) : np_clip x 0 1 = 0 := by
  unfold np_clip
  rw [max_eq_right hx, min_eq_left zero_le_one]

lemma torque_slip_curve_zero : torque_slip_curve 0 = 0 := by
  unfold torque_slip_curve
  norm_num

lemma inertia_pos : (0:ℝ) < INERTIA := by unfold INERTIA; norm_num

/-! ## Claim C1 -/

/-- C1: the claim that every run (VFD or soft starter) started from standstill
keeps omega within [0, synchronous speed at the final setpoint frequency] for
every load type is FALSE: with the constant-power load, the soft starter's
initial voltage (30%) produces less torque at standstill than the standstill
load demand, so the exact trajectory omegaSol immediately goes negative. -/
theorem c1_invariant_counterexample : ¬ omega_range_invariant := by
  intro h
  have h2 := h .constant_power (1 / 2) omegaSol (by norm_num) omegaSol_zero
    (Or.inl fun t ht => omegaSol_ode ht.1 ht.2)
  have h3 := (h2 (1 / 2) ⟨by norm_num, le_refl _⟩).1
  have h4 : omegaSol (1 / 2) < 0 := by
    unfold omegaSol
    nlinarith [rated_torque_pos, uSol_half_neg]
  linarith

/-- C1 (amended): the upper half of the invariant is maintained by the
dynamics: at or above the synchronous speed at the final setpoint frequency,
both derivative fields are nonpositive (slip clips to 0, so no torque is
produced while load and damping brake the rotor), hence omega cannot exceed
synchronous speed; the lower bound 0, however, is not an invariant
(see the counterexample: the soft starter dips below standstill when the
standstill load torque exceeds the reduced-voltage starting torque). -/
theorem c1_overspeed_bound (lt : LoadType) (omega_r t : ℝ)
    (h : SYNC_SPEED_RAD ≤ omega_r) :
    motor_dynamics LOAD_TORQUE lt omega_r t ≤ 0 ∧
    soft_start_motor_dynamics SOFT_START_INITIAL_VOLTAGE LOAD_TORQUE lt
      SOFT_START_RAMP_TIME omega_r t ≤ 0 := by
  have hw : 0 ≤ omega_r := le_trans sync_speed_rad_pos.le h
  have hf60 : freq_func t ≤ 60 := by
    have := freq_func_le t
    unfold BASE_FREQ at this
    exact this
  have hsync_le : (120 * freq_func t / POLES) * (2 * Real.pi / 60) ≤ SYNC_SPEED_RAD := by
    unfold SYNC_SPEED_RAD SYNC_SPEED_RPM BASE_FREQ POLES
    nlinarith [mul_nonneg Real.pi_pos.le (by linarith : (0:ℝ) ≤ 60 - freq_func t)]
  have hslip0 : ∀ S : ℝ, 0 ≤ S → S ≤ SYNC_SPEED_RAD →
      np_clip ((S - omega_r) / S) 0 1 = 0 := by
    intro S hS0 hSle
    apply np_clip_of_nonpos
    exact div_nonpos_of_nonpos_of_nonneg (by linarith) hS0
  have hdamp : 0 ≤ DAMPING * omega_r := by unfold DAMPING; nlinarith
  have hload : ∀ sr : ℝ, 0 ≤ get_load_torque sr LOAD_TORQUE lt :=
    fun sr => get_load_torque_nonneg sr _ lt load_torque_pos.le
  have hclose : ∀ te load : ℝ, te = 0 → 0 ≤ load →
      (te - load - DAMPING * omega_r) / INERTIA ≤ 0 := by
    intro te load hte hl
    apply div_nonpos_of_nonpos_of_nonneg _ inertia_pos.le
    rw [hte]; linarith
  have hS_high : ¬ freq_func t < 1.0 →
      (0:ℝ) ≤ 120 * freq_func t / POLES * (2 * Real.pi / 60) := by
    intro hf
    have hf1 : (1.0:ℝ) ≤ freq_func t := le_of_not_lt hf
    unfold POLES
    nlinarith [mul_nonneg Real.pi_pos.le (by linarith : (0:ℝ) ≤ freq_func t)]
  constructor
  · simp only [motor_dynamics]
    split_ifs with h1 h2 h3 h4 h5 h6
    · exact le_refl _
    · rw [hslip0 _ (by have := le_of_not_lt h2; linarith) hsync_le]
      exact hclose _ _ (by ring) (hload _)
    · rw [hslip0 _ (by have := le_of_not_lt h2; linarith) hsync_le]
      exact hclose _ _ (by ring) (hload _)
    · rw [hslip0 _ (hS_high h1) hsync_le, torque_slip_curve_zero]
      exact hclose _ _ (by ring) (hload _)
    · rw [hslip0 _ (hS_high h1) hsync_le, torque_slip_curve_zero]
      exact hclose _ _ (by ring) (hload _)
    · rw [hslip0 _ (hS_high h1) hsync_le, torque_slip_curve_zero]
      exact hclose _ _ (by ring) (hload _)
    · rw [hslip0 _ (hS_high h1) hsync_le, torque_slip_curve_zero]
      exact hclose _ _ (by ring) (hload _)
  · simp only [soft_start_motor_dynamics, soft_start_torque_em]
    rw [hslip0 _ sync_speed_rad_pos.le (le_refl _), torque_slip_curve_zero]
    split_ifs with h1
    · exact hclose _ _ (by ring) (hload _)
    · exact hclose _ _ (by ring) (hload _)

theorem c1_overspeed_bound_witness :
    SYNC_SPEED_RAD ≤ SYNC_SPEED_RAD ∧
    (motor_dynamics LOAD_TORQUE .fan_pump SYNC_SPEED_RAD 0 ≤ 0 ∧
     soft_start_motor_dynamics SOFT_START_INITIAL_VOLTAGE LOAD_TORQUE .fan_pump
       SOFT_START_RAMP_TIME SYNC_SPEED_RAD 0 ≤ 0) :=
  ⟨le_refl _, c1_overspeed_bound .fan_pump SYNC_SPEED_RAD 0 (le_refl _)⟩

/-! ## Claim C2 -/

/-- C2: the claim that the rational torque-slip ratio attains a maximum of
approximately 2.5 on [0,1] is FALSE: already at the claimed argmax s = 0.28
the ratio exceeds 3.4 (its true maximum is about 3.49). -/
theorem c2_peak_counterexample : (3.4:ℝ) < torque_slip_curve (28 / 100) := by
  unfold torque_slip_curve
  norm_num

/-- C2 (amended): on [0,1] the ratio (2.5s)/(s^2+0.15s+0.08) attains its
maximum at s = sqrt(0.08), which lies near 0.28 (between 0.28 and 0.283); the
maximum value is about 3.49 (not about 2.5), and the ratio at s = 1 is the
nonzero value 250/123. -/
theorem c2_peak_characterization (s : ℝ) (h0 : 0 ≤ s) (_h1 : s ≤ 1) :
    torque_slip_curve s ≤ torque_slip_curve (Real.sqrt 0.08) ∧
    0.28 < Real.sqrt 0.08 ∧ Real.sqrt 0.08 < 0.283 ∧
    3.49 < torque_slip_curve (Real.sqrt 0.08) ∧
    torque_slip_curve (Real.sqrt 0.08) < 3.5 ∧
    torque_slip_curve 1 = 250 / 123 := by
  have hq0 : (0:ℝ) ≤ Real.sqrt 0.08 := Real.sqrt_nonneg _
  have hq2 : Real.sqrt 0.08 ^ 2 = 0.08 := Real.sq_sqrt (by norm_num)
  set q := Real.sqrt 0.08 with hq
  have hql : (0.2827:ℝ) < q := by nlinarith [sq_nonneg (q - 0.2827)]
  have hqu : q < 0.2829 := by nlinarith [sq_nonneg (q - 0.2829)]
  have hDq : (0:ℝ) < q ^ 2 + 0.15 * q + 0.08 := by nlinarith
  have hDs : (0:ℝ) < s ^ 2 + 0.15 * s + 0.08 := by nlinarith
  refine ⟨?_, by linarith, by linarith, ?_, ?_,
    by unfold torque_slip_curve; norm_num⟩
  · unfold torque_slip_curve
    rw [div_le_div_iff₀ hDs hDq]
    nlinarith [mul_nonneg hq0 (sq_nonneg (s - q))]
  · unfold torque_slip_curve
    rw [lt_div_iff₀ hDq]
    nlinarith
  · unfold torque_slip_curve
    rw [div_lt_iff₀ hDq]
    nlinarith

theorem c2_peak_characterization_witness :
    ((0:ℝ) ≤ 1 / 2 ∧ (1 / 2 : ℝ) ≤ 1) ∧
    (torque_slip_curve (1 / 2) ≤ torque_slip_curve (Real.sqrt 0.08) ∧
     0.28 < Real.sqrt 0.08 ∧ Real.sqrt 0.08 < 0.283 ∧
     3.49 < torque_slip_curve (Real.sqrt 0.08) ∧
     torque_slip_curve (Real.sqrt 0.08) < 3.5 ∧
     torque_slip_curve 1 = 250 / 123) :=
  ⟨⟨by norm_num, by norm_num⟩,
   c2_peak_characterization (1 / 2) (by norm_num) (by norm_num)⟩

/-! ## Claim C3 -/

lemma current_floor (x : ℝ) : 0.3 * FLA ≤ Real.sqrt (x ^ 2 + (FLA * 0.3) ^ 2) := by
  have h1 : (FLA * 0.3) ^ 2 ≤ x ^ 2 + (FLA * 0.3) ^ 2 := by nlinarith [sq_nonneg x]
  have h2 : Real.sqrt ((FLA * 0.3) ^ 2) = FLA * 0.3 :=
    Real.sqrt_sq (by nlinarith [fla_pos])
  calc 0.3 * FLA = Real.sqrt ((FLA * 0.3) ^ 2) := by rw [h2]; ring
    _ ≤ _ := Real.sqrt_le_sqrt h1

/-- C3: the claim that the reported current is at least 0.3*FLA at every
sample of every run is FALSE: every sample with freq < 0.5 Hz (in particular
the first sample of the default run, where freq = 0) reports current 0. -/
theorem c3_current_floor_counterexample :
    (v3sample 0 0 .constant_torque).current = 0 ∧ (0:ℝ) < 0.3 * FLA := by
  constructor
  · unfold v3sample
    rw [if_neg (by norm_num : ¬ (0.5:ℝ) ≤ 0)]
  · nlinarith [fla_pos]

/-- C3 (amended): for every sample whose setpoint frequency is at least
0.5 Hz, the reported current equals
sqrt((FLA*(torque/ratedTorque))^2 + (0.3*FLA)^2) and is therefore at least
0.3*FLA; samples below 0.5 Hz report current 0 instead. -/
theorem c3_current_model (lt : LoadType) (freq omega_r : ℝ) (h : 0.5 ≤ freq) :
    (v3sample freq omega_r lt).current =
      Real.sqrt ((FLA * ((v3sample freq omega_r lt).torque / RATED_TORQUE)) ^ 2
        + (FLA * 0.3) ^ 2) ∧
    0.3 * FLA ≤ (v3sample freq omega_r lt).current := by
  unfold v3sample
  rw [if_pos h]
  exact ⟨rfl, current_floor _⟩

theorem c3_current_model_witness :
    (0.5:ℝ) ≤ 60 ∧
    ((v3sample 60 0 .constant_torque).current =
      Real.sqrt ((FLA * ((v3sample 60 0 .constant_torque).torque / RATED_TORQUE)) ^ 2
        + (FLA * 0.3) ^ 2) ∧
     0.3 * FLA ≤ (v3sample 60 0 .constant_torque).current) :=
  ⟨by norm_num, c3_current_model .constant_torque 60 0 (by norm_num)⟩

/-! ## Claim C4 -/

/-- C4: the claim that every frequency-controlled run reports slip as 100%
below the 0.5 Hz threshold is FALSE for the v4 metrics engine: its vfd branch
skips such samples with `continue`, leaving slip at its zero initial value. -/
theorem c4_v4_slip_counterexample :
    (v4vfd_sample 0 0 .constant_torque).slip_pct ≠ 100 := by
  have h : vfd_freq_func 0 VFD_RAMP_TIME < 0.5 := by
    unfold vfd_freq_func VFD_RAMP_TIME BASE_FREQ
    rw [if_pos (by norm_num : (0:ℝ) ≤ 30)]
    norm_num
  simp only [v4vfd_sample]
  rw [if_pos h]
  norm_num

/-- C4 (amended): below the 0.5 Hz threshold the v3 metrics loop reports
slip 100% and torque/current/load torque 0, while the v4 vfd metrics loop
skips the sample entirely, leaving every reported quantity (slip included)
at 0. -/
theorem c4_low_freq_reporting (lt : LoadType) (freq omega_r t w : ℝ)
    (h3 : freq < 0.5) (h4 : vfd_freq_func t VFD_RAMP_TIME < 0.5) :
    ((v3sample freq omega_r lt).slip_pct = 100 ∧
     (v3sample freq omega_r lt).torque = 0 ∧
     (v3sample freq omega_r lt).current = 0 ∧
     (v3sample freq omega_r lt).load_torque = 0) ∧
    v4vfd_sample t w lt = ⟨0, 0, 0, 0, 0, 0, 0⟩ := by
  constructor
  · unfold v3sample
    rw [if_neg (not_le.mpr h3)]
    exact ⟨rfl, rfl, rfl, rfl⟩
  · simp only [v4vfd_sample]
    rw [if_pos h4]

theorem c4_low_freq_reporting_witness :
    ((0:ℝ) < 0.5 ∧ vfd_freq_func 0 VFD_RAMP_TIME < 0.5) ∧
    (((v3sample 0 0 .constant_torque).slip_pct = 100 ∧
      (v3sample 0 0 .constant_torque).torque = 0 ∧
      (v3sample 0 0 .constant_torque).current = 0 ∧
      (v3sample 0 0 .constant_torque).load_torque = 0) ∧
     v4vfd_sample 0 0 .constant_torque = ⟨0, 0, 0, 0, 0, 0, 0⟩) := by
  have h4 : vfd_freq_func 0 VFD_RAMP_TIME < 0.5 := by
    unfold vfd_freq_func VFD_RAMP_TIME BASE_FREQ
    rw [if_pos (by norm_num : (0:ℝ) ≤ 30)]
    norm_num
  exact ⟨⟨by norm_num, h4⟩,
    c4_low_freq_reporting .constant_torque 0 0 0 0 (by norm_num) h4⟩

/-! ## Claim C5 -/

/-- C5: the claim that the DOL torque decays from 2.5*ratedTorque as t
approaches 0 from above is FALSE: just above t = 0 the affine torque law
evaluates above 3.4*ratedTorque (its limit from above is 3.5*ratedTorque). -/
theorem c5_dol_torque_counterexample : 2.5 * RATED_TORQUE < dol_torque (1 / 100) := by
  unfold dol_torque
  rw [if_neg (by norm_num : (1 / 100 : ℝ) ≠ 0)]
  have hexp : -(1 / 100 : ℝ) / 2 + 1 ≤ Real.exp (-(1 / 100 : ℝ) / 2) :=
    Real.add_one_le_exp _
  nlinarith [rated_torque_pos, hexp,
    mul_pos rated_torque_pos
      (show (0:ℝ) < 2.5 * (1 - (1 - Real.exp (-(1 / 100 : ℝ) / 2)) * 0.97) + 1.0 - 2.5 by
        nlinarith [hexp])]

/-- C5 (amended): the DOL approximator stores the locked-rotor values
(speed 0, current 6.5*FLA, torque 2.5*ratedTorque) exactly at t = 0; for
t > 0 it follows the exponential speed curve and affine current/torque laws
in the complementary slip ratio, whose values at slip 0 are the rated ones;
but the limits as t approaches 0 from above are 6.5*FLA for current and
3.5*ratedTorque (not 2.5*ratedTorque) for torque, a jump at t = 0. -/
theorem c5_dol_characterization (t : ℝ) (ht : 0 < t) :
    (dol_omega 0 = 0 ∧ dol_current 0 = FLA * 6.5 ∧
     dol_torque 0 = RATED_TORQUE * 2.5) ∧
    dol_omega t = SYNC_SPEED_RPM * 0.97 * (1 - Real.exp (-t / 2)) ∧
    dol_current t = FLA * (1 + 5.5 * (1 - (1 - Real.exp (-t / 2)) * 0.97)) ∧
    dol_torque t = RATED_TORQUE * (2.5 * (1 - (1 - Real.exp (-t / 2)) * 0.97) + 1.0) ∧
    FLA * (1 + 5.5 * 0) = FLA ∧ RATED_TORQUE * (2.5 * 0 + 1.0) = RATED_TORQUE ∧
    Filter.Tendsto dol_torque (nhdsWithin 0 (Set.Ioi 0)) (nhds (3.5 * RATED_TORQUE)) ∧
    Filter.Tendsto dol_current (nhdsWithin 0 (Set.Ioi 0)) (nhds (6.5 * FLA)) := by
  have hne : t ≠ 0 := ne_of_gt ht
  refine ⟨⟨?_, ?_, ?_⟩, ?_, ?_, ?_, by ring, by ring, ?_, ?_⟩
  · unfold dol_omega; rw [if_pos rfl]
  · unfold dol_current; rw [if_pos rfl]
  · unfold dol_torque; rw [if_pos rfl]
  · unfold dol_omega; rw [if_neg hne]
  · unfold dol_current; rw [if_neg hne]
  · unfold dol_torque; rw [if_neg hne]
  · have hcont : Continuous fun s : ℝ =>
        RATED_TORQUE * (2.5 * (1 - (1 - Real.exp (-s / 2)) * 0.97) + 1.0) := by
      continuity
    have h0 : (fun s : ℝ =>
        RATED_TORQUE * (2.5 * (1 - (1 - Real.exp (-s / 2)) * 0.97) + 1.0)) 0
        = 3.5 * RATED_TORQUE := by
      simp only [neg_zero, zero_div, Real.exp_zero]
      ring
    have htd : Filter.Tendsto (fun s : ℝ =>
        RATED_TORQUE * (2.5 * (1 - (1 - Real.exp (-s / 2)) * 0.97) + 1.0))
        (nhdsWithin 0 (Set.Ioi 0))
        (nhds ((fun s : ℝ =>
          RATED_TORQUE * (2.5 * (1 - (1 - Real.exp (-s / 2)) * 0.97) + 1.0)) 0)) :=
      (hcont.tendsto 0).mono_left nhdsWithin_le_nhds
    rw [h0] at htd
    refine Filter.Tendsto.congr' ?_ htd
    filter_upwards [self_mem_nhdsWithin] with s hs
    unfold dol_torque
    rw [if_neg (ne_of_gt hs)]
  · have hcont : Continuous fun s : ℝ =>
        FLA * (1 + 5.5 * (1 - (1 - Real.exp (-s / 2)) * 0.97)) := by
      continuity
    have h0 : (fun s : ℝ =>
        FLA * (1 + 5.5 * (1 - (1 - Real.exp (-s / 2)) * 0.97))) 0 = 6.5 * FLA := by
      simp only [neg_zero, zero_div, Real.exp_zero]
      ring
    have htd : Filter.Tendsto (fun s : ℝ =>
        FLA * (1 + 5.5 * (1 - (1 - Real.exp (-s / 2)) * 0.97)))
        (nhdsWithin 0 (Set.Ioi 0))
        (nhds ((fun s : ℝ =>
          FLA * (1 + 5.5 * (1 - (1 - Real.exp (-s / 2)) * 0.97))) 0)) :=
      (hcont.tendsto 0).mono_left nhdsWithin_le_nhds
    rw [h0] at htd
    refine Filter.Tendsto.congr' ?_ htd
    filter_upwards [self_mem_nhdsWithin] with s hs
    unfold dol_current
    rw [if_neg (ne_of_gt hs)]

theorem c5_dol_characterization_witness :
    (0:ℝ) < 1 ∧
    ((dol_omega 0 = 0 ∧ dol_current 0 = FLA * 6.5 ∧
      dol_torque 0 = RATED_TORQUE * 2.5) ∧
     dol_omega 1 = SYNC_SPEED_RPM * 0.97 * (1 - Real.exp (-1 / 2)) ∧
     dol_current 1 = FLA * (1 + 5.5 * (1 - (1 - Real.exp (-1 / 2)) * 0.97)) ∧
     dol_torque 1 = RATED_TORQUE * (2.5 * (1 - (1 - Real.exp (-1 / 2)) * 0.97) + 1.0) ∧
     FLA * (1 + 5.5 * 0) = FLA ∧ RATED_TORQUE * (2.5 * 0 + 1.0) = RATED_TORQUE ∧
     Filter.Tendsto dol_torque (nhdsWithin 0 (Set.Ioi 0)) (nhds (3.5 * RATED_TORQUE)) ∧
     Filter.Tendsto dol_current (nhdsWithin 0 (Set.Ioi 0)) (nhds (6.5 * FLA))) :=
  ⟨by norm_num, c5_dol_characterization 1 (by norm_num)⟩

/-! ## Claim C6 -/

/-- C6: the claim that at a numerically degenerate synchronous speed the
derivative equals (0 - loadTorque - damping*omega)/inertia is FALSE: the v3
derivative function short-circuits to an unconditional 0 (here at t = 0,
omega = 0, where that expression is strictly negative). -/
theorem c6_degenerate_counterexample :
    motor_dynamics LOAD_TORQUE .constant_torque 0 0 = 0 ∧
    (0 - get_load_torque (0 / SYNC_SPEED_RAD) LOAD_TORQUE .constant_torque
      - DAMPING * 0) / INERTIA < 0 := by
  have hf : freq_func 0 = 0 := by
    unfold freq_func RAMP_TIME BASE_FREQ
    rw [if_pos (by norm_num : (0:ℝ) ≤ 30)]
    norm_num
  constructor
  · simp only [motor_dynamics, hf]
    rw [show (120 * (0:ℝ) / POLES) * (2 * Real.pi / 60) = 0 from by unfold POLES; ring]
    rw [if_pos (by norm_num : (0:ℝ) < 1.0), if_pos (by norm_num : (0:ℝ) < 0.1)]
  · have hL : get_load_torque (0 / SYNC_SPEED_RAD) LOAD_TORQUE .constant_torque
        = LOAD_TORQUE * 0.3 := by
      unfold get_load_torque
      rw [zero_div]
      rw [min_eq_left zero_le_one, max_self]
      dsimp only
      ring
    rw [hL]
    apply div_neg_of_neg_of_pos _ inertia_pos
    unfold DAMPING
    nlinarith [load_torque_pos]

/-- C6 (amended): whenever the synchronous speed at the instantaneous setpoint
frequency is numerically degenerate (below the 0.1 rad/s epsilon), the v3
derivative function returns 0 unconditionally, freezing the state; it does not
evaluate torque, slip, or the load/damping terms of the equation of motion. -/
theorem c6_degenerate_freeze (lt : LoadType) (base_load omega_r t : ℝ)
    (h : (120 * freq_func t / POLES) * (2 * Real.pi / 60) < 0.1) :
    motor_dynamics base_load lt omega_r t = 0 := by
  have hfreq : freq_func t < 1.0 := by
    by_contra hc
    push_neg at hc
    have hpi := Real.pi_gt_three
    unfold POLES at h
    nlinarith [mul_le_mul_of_nonneg_left hc
      (by linarith [Real.pi_gt_three] : (0:ℝ) ≤ Real.pi)]
  simp only [motor_dynamics]
  rw [if_pos hfreq, if_pos h]

theorem c6_degenerate_freeze_witness :
    (120 * freq_func 0 / POLES) * (2 * Real.pi / 60) < 0.1 ∧
    motor_dynamics LOAD_TORQUE .constant_torque 5 0 = 0 := by
  have hf : freq_func 0 = 0 := by
    unfold freq_func RAMP_TIME BASE_FREQ
    rw [if_pos (by norm_num : (0:ℝ) ≤ 30)]
    norm_num
  have h : (120 * freq_func 0 / POLES) * (2 * Real.pi / 60) < 0.1 := by
    rw [hf]
    rw [show (120 * (0:ℝ) / POLES) * (2 * Real.pi / 60) = 0 from by unfold POLES; ring]
    norm_num
  exact ⟨h, c6_degenerate_freeze .constant_torque LOAD_TORQUE 5 0 h⟩

/-! ## Claim C7 -/

/-- C7: for every load type (including the unknown-type fallback), every real
input speed ratio (clamped internally to [0,1]) and every nonnegative base
torque, the load torque is nonnegative; it is at most baseLoadTorque for
ConstantTorque, FanPump and the fallback, at most 10*baseLoadTorque for
ConstantPower, and exactly baseLoadTorque when the clamped speed ratio of a
ConstantPower load is below 0.1. -/
theorem c7_load_torque_bounds (lt : LoadType) (speed_r base_torque : ℝ)
    (hb : 0 ≤ base_torque) :
    0 ≤ get_load_torque speed_r base_torque lt ∧
    (lt ≠ .constant_power → get_load_torque speed_r base_torque lt ≤ base_torque) ∧
    get_load_torque speed_r base_torque lt ≤ 10 * base_torque ∧
    (max 0 (min speed_r 1) < 0.1 →
      get_load_torque speed_r base_torque .constant_power = base_torque) := by
  refine ⟨get_load_torque_nonneg _ _ _ hb,
    fun hne => get_load_torque_le_base _ _ _ hb hne, ?_, ?_⟩
  · cases lt with
    | constant_power => exact get_load_torque_cp_le _ _ hb
    | constant_torque =>
        have := get_load_torque_le_base speed_r base_torque .constant_torque hb
          (by intro hc; exact LoadType.noConfusion hc)
        linarith
    | fan_pump =>
        have := get_load_torque_le_base speed_r base_torque .fan_pump hb
          (by intro hc; exact LoadType.noConfusion hc)
        linarith
    | other =>
        have := get_load_torque_le_base speed_r base_torque .other hb
          (by intro hc; exact LoadType.noConfusion hc)
        linarith
  · intro hlt
    unfold get_load_torque
    dsimp only
    rw [if_pos hlt]
    ring

theorem c7_load_torque_bounds_witness :
    (0:ℝ) ≤ 2 ∧
    (0 ≤ get_load_torque (-5) 2 .constant_power ∧
     (LoadType.constant_power ≠ .constant_power →
        get_load_torque (-5) 2 .constant_power ≤ 2) ∧
     get_load_torque (-5) 2 .constant_power ≤ 10 * 2 ∧
     (max 0 (min (-5:ℝ) 1) < 0.1 →
        get_load_torque (-5) 2 .constant_power = 2)) :=
  ⟨by norm_num, c7_load_torque_bounds .constant_power (-5) 2 (by norm_num)⟩

/-! ## Claim C8 -/

lemma pin_pos_of_current_floor (cur : ℝ) (h : 0.3 * FLA ≤ cur) :
    0 < Real.sqrt 3 * VOLTAGE * cur * POWER_FACTOR / 1000 := by
  have h3 : (0:ℝ) < Real.sqrt 3 := Real.sqrt_pos.mpr (by norm_num)
  have hcur : 0 < cur := lt_of_lt_of_le (by nlinarith [fla_pos]) h
  have hV : (0:ℝ) < VOLTAGE := by unfold VOLTAGE; norm_num
  have hPF : (0:ℝ) < POWER_FACTOR := by unfold POWER_FACTOR; norm_num
  apply div_pos _ (by norm_num : (0:ℝ) < 1000)
  exact mul_pos (mul_pos (mul_pos h3 hV) hcur) hPF

lemma v3sample_power_in_pos (lt : LoadType) (freq omega_r : ℝ) (h : 0.5 ≤ freq) :
    0 < (v3sample freq omega_r lt).power_in := by
  unfold v3sample
  rw [if_pos h]
  exact pin_pos_of_current_floor _ (current_floor _)

lemma v3sample_eff_iff (lt : LoadType) (freq omega_r : ℝ) (h : 0.5 ≤ freq) :
    (0 < (v3sample freq omega_r lt).eff_pct ↔
     0 < (v3sample freq omega_r lt).power_out) := by
  have hpin := v3sample_power_in_pos lt freq omega_r h
  unfold v3sample at hpin ⊢
  rw [if_pos h] at hpin ⊢
  dsimp only at hpin ⊢
  rw [if_pos hpin]
  constructor
  · intro he
    by_contra hc
    push_neg at hc
    nlinarith [div_nonpos_of_nonpos_of_nonneg hc hpin.le]
  · intro hp
    have := div_pos hp hpin
    nlinarith

lemma v3_pout_pos_60_100 : 0 < (v3sample 60 100 .fan_pump).power_out := by
  unfold v3sample
  rw [if_pos (by norm_num : (0.5:ℝ) ≤ 60)]
  dsimp only
  rw [if_pos sync_speed_rad_pos]
  have hsr : (0:ℝ) < 100 / SYNC_SPEED_RAD := div_pos (by norm_num) sync_speed_rad_pos
  have hsr1 : 100 / SYNC_SPEED_RAD < 1 := by
    rw [div_lt_one sync_speed_rad_pos]
    unfold SYNC_SPEED_RAD SYNC_SPEED_RPM BASE_FREQ POLES
    nlinarith [Real.pi_gt_three]
  have hload : 0 < get_load_torque (100 / SYNC_SPEED_RAD) LOAD_TORQUE .fan_pump := by
    unfold get_load_torque
    dsimp only
    rw [min_eq_left hsr1.le, max_eq_right hsr.le]
    exact mul_pos load_torque_pos (pow_pos hsr 2)
  exact div_pos (mul_pos (by norm_num) hload) (by norm_num)

lemma v3_eff_zero_at_standstill : (v3sample (3/5) 0 .fan_pump).eff_pct = 0 := by
  unfold v3sample
  rw [if_pos (by norm_num : (0.5:ℝ) ≤ 3/5)]
  dsimp only
  split_ifs <;> simp

/-- C8: the claim that the average-efficiency summary is the mean over exactly
the samples with positive input power is FALSE: the source filters on
efficiency > 0.  A sample at freq = 0.6 Hz with the rotor at standstill under
a fan/pump load has positive input power (current is at least 0.3*FLA) but
zero output power, hence zero efficiency: the code excludes it while the
claimed average would include it, and the two averages differ. -/
theorem c8_avg_efficiency_counterexample :
    avg_efficiency [((60:ℝ), (100:ℝ)), ((3/5:ℝ), (0:ℝ))] .fan_pump ≠
    avg_efficiency_per_spec [((60:ℝ), (100:ℝ)), ((3/5:ℝ), (0:ℝ))] .fan_pump := by
  have he1 : 0 < (v3sample 60 100 .fan_pump).eff_pct :=
    (v3sample_eff_iff _ _ _ (by norm_num)).mpr v3_pout_pos_60_100
  have he2 := v3_eff_zero_at_standstill
  have hp1 : 0 < (v3sample 60 100 .fan_pump).power_in :=
    v3sample_power_in_pos _ _ _ (by norm_num)
  have hp2 : 0 < (v3sample (3/5) 0 .fan_pump).power_in :=
    v3sample_power_in_pos _ _ _ (by norm_num)
  unfold avg_efficiency avg_efficiency_per_spec
  simp only [List.map_cons, List.map_nil, List.filter_cons, List.filter_nil,
    decide_eq_true_eq]
  rw [if_pos he1, if_neg (by rw [he2]; exact lt_irrefl 0), if_pos hp1, if_pos hp2]
  simp only [List.map_cons, List.map_nil, np_mean, List.sum_cons, List.sum_nil,
    List.length_cons, List.length_nil]
  rw [he2]
  push_cast
  intro hcontra
  rw [div_eq_div_iff (by norm_num) (by norm_num)] at hcontra
  nlinarith [he1]

/-- C8 (amended): the average efficiency is the mean over samples whose
per-sample efficiency is strictly positive.  For samples at or above the
0.5 Hz threshold the input power is always strictly positive, and efficiency
is positive exactly when output power is; so the code's filter keeps the
samples with both powers positive, excluding zero-output samples that the
input-power-only criterion would include. -/
theorem c8_efficiency_filter (lt : LoadType) (freq omega_r : ℝ) (h : 0.5 ≤ freq) :
    0 < (v3sample freq omega_r lt).power_in ∧
    (0 < (v3sample freq omega_r lt).eff_pct ↔
     0 < (v3sample freq omega_r lt).power_out) :=
  ⟨v3sample_power_in_pos lt freq omega_r h, v3sample_eff_iff lt freq omega_r h⟩

theorem c8_efficiency_filter_witness :
    (0.5:ℝ) ≤ 60 ∧
    (0 < (v3sample 60 1 .constant_torque).power_in ∧
     (0 < (v3sample 60 1 .constant_torque).eff_pct ↔
      0 < (v3sample 60 1 .constant_torque).power_out)) :=
  ⟨by norm_num, c8_efficiency_filter .constant_torque 60 1 (by norm_num)⟩

/-! ## Claim C9 -/

/-- C9: with the soft-starter initial voltage fraction set to 1.0 the control
voltage equals full line voltage at every time (any ramp duration), and the
soft-starter electromagnetic torque equals ratedTorque times the bare rational
torque-slip curve, with no voltage attenuation — the instantaneous
full-voltage behavior. -/
theorem c9_full_voltage_soft_start (t ramp_time omega_r : ℝ) :
    soft_start_voltage_func 1 t ramp_time = VOLTAGE ∧
    soft_start_torque_em 1 ramp_time omega_r t =
      RATED_TORQUE * torque_slip_curve
        (np_clip ((SYNC_SPEED_RAD - omega_r) / SYNC_SPEED_RAD) 0 1) := by
  have hv : soft_start_voltage_func 1 t ramp_time = VOLTAGE := by
    unfold soft_start_voltage_func
    split_ifs with h
    · ring
    · rfl
  refine ⟨hv, ?_⟩
  unfold soft_start_torque_em
  rw [hv]
  have hV : (VOLTAGE:ℝ) ≠ 0 := by unfold VOLTAGE; norm_num
  rw [div_self hV]
  ring

/-! ## Claim C10 -/

/-- C10: every v3 metrics sample with freq at least 0.5 Hz computes input
power from the fixed full line voltage, power_in =
sqrt(3)*VOLTAGE*current*POWER_FACTOR/1000, independent of the VFD voltage
setpoint (which differs during the ramp: voltage_func 30 = VOLTAGE/2 while
voltage_func at base frequency is the full VOLTAGE); the trapezoidal startup
energy (vfd_energy_kj) therefore integrates full-line-voltage power. -/
theorem c10_power_input_fixed_voltage (lt : LoadType) (freq omega_r : ℝ)
    (h : 0.5 ≤ freq) :
    (v3sample freq omega_r lt).power_in =
      Real.sqrt 3 * VOLTAGE * (v3sample freq omega_r lt).current
        * POWER_FACTOR / 1000 ∧
    voltage_func BASE_FREQ = VOLTAGE ∧ voltage_func 30 = VOLTAGE / 2 := by
  refine ⟨?_, ?_, ?_⟩
  · unfold v3sample
    rw [if_pos h]
  · unfold voltage_func BASE_FREQ VOLTAGE V_BOOST
    rw [if_neg (by norm_num)]
    norm_num
  · unfold voltage_func BASE_FREQ VOLTAGE V_BOOST
    rw [if_neg (by norm_num)]
    norm_num

theorem c10_power_input_fixed_voltage_witness :
    (0.5:ℝ) ≤ 60 ∧
    ((v3sample 60 0 .constant_torque).power_in =
      Real.sqrt 3 * VOLTAGE * (v3sample 60 0 .constant_torque).current
        * POWER_FACTOR / 1000 ∧
     voltage_func BASE_FREQ = VOLTAGE ∧ voltage_func 30 = VOLTAGE / 2) :=
  ⟨by norm_num, c10_power_input_fixed_voltage .constant_torque 60 0 (by norm_num)⟩

end
